import Mathlib

/-!
Verification of the model-routing gateway (router-service).

The development shallowly embeds the routing pipeline of
src/router-service/app: the pure decision function compute_decision, the
fallback executor run_with_fallback, the orchestrator handle_run, the
JSON-validity gate, and the configured-key guard of the hosted adapters.
Machine integers are modelled as Nat, Python floats as Rat, Python None as
Option.none, and the registry/adapter I/O as explicit oracle arguments.
Audit events are collected in an explicit list in the execution state.
-/

namespace Router

/-! ## Data model (schemas.py) -/

/-- Tier enumeration (schemas.py, class Tier). The constructor for the
"local" tier is named local_ because local is a Lean keyword. -/
inductive Tier where
  | local_
  | market
  | premium
deriving DecidableEq, Repr

/-- Tier.value: the string value of the enum member. -/
def Tier.value : Tier → String
  | .local_ => "local"
  | .market => "market"
  | .premium => "premium"

/-- Sensitivity enumeration (schemas.py, class Sensitivity). -/
inductive Sensitivity where
  | low
  | normal
  | high
deriving DecidableEq, Repr

/-- Dynamic JSON document: the possible shapes of an adapter output after
the adapters parse the backend text with json.loads (a mapping, an ordered
sequence, a string, a number, a boolean, or null).  The program never
inspects the members of a mapping or sequence, nor the numeric value of a
number, so obj and arr carry no contents and a number keeps only its
lexeme; parsing still validates the full nested document. -/
inductive JsonVal where
  | obj
  | arr
  | str (s : String)
  | num (lit : String)
  | bool (b : Bool)
  | null
deriving DecidableEq, Repr

/-- RunRequest (schemas.py): inbound request for POST /run.  The metadata
mapping is omitted: it is only echoed into the task payload. -/
structure RunRequest where
  task_type : String
  prompt : String
  context : Option String := none
  sensitivity : Sensitivity := .normal
  source : String := "n8n"

/-- EscalationRules (schemas.py) with its default values. -/
structure EscalationRules where
  local_fail_count : Nat := 2
  invalid_json_escalate : Bool := true
  context_overflow_escalate : Bool := true

/-- RoutingPolicy (schemas.py) with its default values.  The models dict
is an association list keyed by tier value strings.  The field local_share
is named local_ratio in the Python source (renamed for the Lean scanner). -/
structure RoutingPolicy where
  default_tier : Tier := .local_
  local_share : ℚ := 80/100
  max_local_retries : Nat := 2
  context_threshold_tokens : Nat := 4000
  escalation_rules : EscalationRules := {}
  premium_trigger : String := "sensitivity_high_only"
  fallback_chain : List Tier := [.local_, .market, .premium]
  models : List (String × String) :=
    [("local", "llama3.1:8b"),
     ("market", "meta-llama/llama-3.1-70b-instruct"),
     ("premium", "claude-sonnet-4-20250514")]

/-- Governance (schemas.py) with its default values. -/
structure Governance where
  level : String := "standard"
  require_audit : Bool := true
  require_explanation : Bool := true
  max_cost_per_request : ℚ := 50/100
  premium_approval_required : Bool := false

/-- RouterDecision (schemas.py): the decision record. -/
structure RouterDecision where
  route : Tier
  model : String
  reason : String
  confidence : ℚ
  escalation_level : Nat := 0
  cost_estimate : ℚ := 0

/-- Adapter result dict { success, output, latency_ms, token_count, error }
(the uniform return shape of every adapter generate method).  output none
models Python None. -/
structure AttemptRes where
  success : Bool
  output : Option JsonVal
  latency_ms : Nat
  token_count : Nat
  error : Option String

/-- RouterResult (schemas.py): the structured result returned to the
caller.  The timestamp field (wall-clock time) is omitted. -/
structure RouterResult where
  task_id : String
  decision : RouterDecision
  output : Option JsonVal
  success : Bool
  tier_used : Tier
  model_used : String
  latency_ms : Nat
  error : Option String := none

/-- One audit event as written by db.log_event (supabase_logger.py).  The
task_id/decision_id columns and the response preview are omitted; the
fields below are the ones the spec reasons about. -/
structure Event where
  event_type : String
  tier : String
  model : String
  success : Bool
  latency_ms : Nat := 0
  token_count : Nat := 0
  error_message : Option String := none
deriving DecidableEq, Repr

/-! ## Token and cost estimation (router_engine.py, lines 29-49) -/

/-- COST_PER_1K: cost estimates per 1K tokens, keyed by tier value. -/
def COST_PER_1K : List (String × ℚ) :=
  [("local", 0), ("market", 8/10000), ("premium", 3/1000)]

/-- estimate_tokens: rough token estimate, about 4 chars per token
(max(1, len(text) // 4)). -/
def estimate_tokens (text : String) : Nat :=
  max 1 (text.length / 4)

/-- Rounding to 6 decimal places, modelling round(x, 6) on the (exactly
represented) rational value. -/
def round6 (q : ℚ) : ℚ :=
  (round (q * 1000000) : ℚ) / 1000000

/-- estimate_cost: rate lookup with default 0, times token_count/1000,
rounded to 6 decimals. -/
def estimate_cost (tier : String) (token_count : Nat) : ℚ :=
  let rate := (COST_PER_1K.lookup tier).getD 0
  round6 (rate * ((token_count : ℚ) / 1000))

/-! ## JSON parsing

json.loads is Python standard library code, not part of src/, so it is
modelled from the spec here (the spec gate reads: a string is valid iff it
"successfully parses as JSON").  The model follows the default json.loads
grammar: one JSON document with optional surrounding whitespace, strict
strings (raw control characters rejected, the standard escapes and \uXXXX
accepted), strict number syntax, plus the NaN / Infinity / -Infinity
extensions that json.loads accepts by default.  Recursion is fuelled so
that every definition is structural and kernel-evaluable. -/

/-- The double-quote character. -/
def quoteChar : Char := Char.ofNat 34

/-- The backslash character. -/
def bslashChar : Char := Char.ofNat 92

/-- The opening curly bracket. -/
def lcurly : Char := Char.ofNat 123

/-- The closing curly bracket. -/
def rcurly : Char := Char.ofNat 125

/-- JSON whitespace: space, tab, linefeed, carriage return. -/
def isJsonWs (c : Char) : Bool :=
  c = ' ' || c = Char.ofNat 9 || c = Char.ofNat 10 || c = Char.ofNat 13

/-- Drop leading JSON whitespace. -/
def skipWs (cs : List Char) : List Char := cs.dropWhile isJsonWs

/-- Decode a single-character escape sequence. -/
def escapeChar (c : Char) : Option Char :=
  if c = quoteChar then some quoteChar
  else if c = bslashChar then some bslashChar
  else if c = '/' then some '/'
  else if c = 'b' then some (Char.ofNat 8)
  else if c = 'f' then some (Char.ofNat 12)
  else if c = 'n' then some (Char.ofNat 10)
  else if c = 'r' then some (Char.ofNat 13)
  else if c = 't' then some (Char.ofNat 9)
  else none

/-- Value of one hexadecimal digit. -/
def hexVal (c : Char) : Option Nat :=
  if c.isDigit then some (c.toNat - 48)
  else if 'a' ≤ c ∧ c ≤ 'f' then some (c.toNat - 87)
  else if 'A' ≤ c ∧ c ≤ 'F' then some (c.toNat - 55)
  else none

/-- Parse the body of a JSON string, positioned just after the opening
quote; returns the decoded string and the remaining input. -/
def parseStrBody : Nat → List Char → List Char → Option (String × List Char)
  | 0, _, _ => none
  | _ + 1, [], _ => none
  | fuel + 1, c :: rest, acc =>
    if c = quoteChar then some (String.mk acc.reverse, rest)
    else if c = bslashChar then
      match rest with
      | [] => none
      | e :: rest2 =>
        if e = 'u' then
          match rest2 with
          | h1 :: h2 :: h3 :: h4 :: rest3 =>
            match hexVal h1, hexVal h2, hexVal h3, hexVal h4 with
            | some a, some b, some c2, some d =>
              parseStrBody fuel rest3 (Char.ofNat (((a * 16 + b) * 16 + c2) * 16 + d) :: acc)
            | _, _, _, _ => none
          | _ => none
        else
          match escapeChar e with
          | some ec => parseStrBody fuel rest2 (ec :: acc)
          | none => none
    else if c.toNat < 32 then none
    else parseStrBody fuel rest (c :: acc)

/-- Split off a maximal run of decimal digits. -/
def takeDigits (cs : List Char) : List Char × List Char :=
  (cs.takeWhile Char.isDigit, cs.dropWhile Char.isDigit)

/-- Integer part of a JSON number: 0, or a nonzero digit followed by
digits. -/
def parseIntPart : List Char → Option (List Char × List Char)
  | [] => none
  | c :: rest =>
    if c = '0' then some ([c], rest)
    else if c.isDigit then
      let (ds, rest2) := takeDigits rest
      some (c :: ds, rest2)
    else none

/-- Optional fractional part: a dot followed by at least one digit;
consumes nothing otherwise. -/
def parseFracPart (cs : List Char) : List Char × List Char :=
  match cs with
  | '.' :: rest =>
    let (ds, rest2) := takeDigits rest
    if ds = [] then ([], cs) else ('.' :: ds, rest2)
  | _ => ([], cs)

/-- Optional exponent part: e or E, an optional sign, at least one digit;
consumes nothing otherwise. -/
def parseExpPart (cs : List Char) : List Char × List Char :=
  match cs with
  | c :: rest =>
    if c = 'e' ∨ c = 'E' then
      match rest with
      | s :: rest2 =>
        if s = '+' ∨ s = '-' then
          let (ds, rest3) := takeDigits rest2
          if ds = [] then ([], cs) else (c :: s :: ds, rest3)
        else
          let (ds, rest3) := takeDigits rest
          if ds = [] then ([], cs) else (c :: ds, rest3)
      | [] => ([], cs)
    else ([], cs)
  | [] => ([], cs)

/-- Parse a JSON number at the head of the input. -/
def parseNum (cs : List Char) : Option (JsonVal × List Char) :=
  let (sgn, cs1) :=
    match cs with
    | '-' :: r => ([('-' : Char)], r)
    | _ => (([] : List Char), cs)
  match parseIntPart cs1 with
  | none => none
  | some (ip, cs2) =>
    let (fp, cs3) := parseFracPart cs2
    let (ep, cs4) := parseExpPart cs3
    some (JsonVal.num (String.mk (sgn ++ ip ++ fp ++ ep)), cs4)

/-- Parsing mode of the recursive descent: a whole value, the inside of an
array (at its first element or after an element), or the inside of an
object likewise. -/
inductive PMode where
  | value
  | arrStart
  | arrTail
  | objStart
  | objTail

/-- One fuelled step of the recursive-descent JSON parser.  In value mode
the input starts at the value itself; in the other modes the input has
been whitespace-skipped past the opening bracket, the previous element, or
the previous member. -/
def parseStep : Nat → PMode → List Char → Option (JsonVal × List Char)
  | 0, _, _ => none
  | fuel + 1, mode, cs =>
    match mode with
    | .value =>
      match cs with
      | [] => none
      | c :: rest =>
        if c = lcurly then parseStep fuel .objStart (skipWs rest)
        else if c = '[' then parseStep fuel .arrStart (skipWs rest)
        else if c = quoteChar then
          match parseStrBody (rest.length + 1) rest [] with
          | some (s, rest2) => some (JsonVal.str s, rest2)
          | none => none
        else if cs.take 4 = ['t', 'r', 'u', 'e'] then some (JsonVal.bool true, cs.drop 4)
        else if cs.take 5 = ['f', 'a', 'l', 's', 'e'] then some (JsonVal.bool false, cs.drop 5)
        else if cs.take 4 = ['n', 'u', 'l', 'l'] then some (JsonVal.null, cs.drop 4)
        else if cs.take 3 = ['N', 'a', 'N'] then some (JsonVal.num "NaN", cs.drop 3)
        else if cs.take 8 = ['I', 'n', 'f', 'i', 'n', 'i', 't', 'y'] then
          some (JsonVal.num "Infinity", cs.drop 8)
        else if cs.take 9 = ['-', 'I', 'n', 'f', 'i', 'n', 'i', 't', 'y'] then
          some (JsonVal.num "-Infinity", cs.drop 9)
        else parseNum cs
    | .arrStart =>
      match cs with
      | [] => none
      | c :: rest =>
        if c = ']' then some (JsonVal.arr, rest)
        else
          match parseStep fuel .value cs with
          | some (_, rest2) => parseStep fuel .arrTail (skipWs rest2)
          | none => none
    | .arrTail =>
      match cs with
      | [] => none
      | c :: rest =>
        if c = ']' then some (JsonVal.arr, rest)
        else if c = ',' then
          match parseStep fuel .value (skipWs rest) with
          | some (_, rest2) => parseStep fuel .arrTail (skipWs rest2)
          | none => none
        else none
    | .objStart =>
      match cs with
      | [] => none
      | c :: rest =>
        if c = rcurly then some (JsonVal.obj, rest)
        else if c = quoteChar then
          match parseStrBody (rest.length + 1) rest [] with
          | some (_, rest2) =>
            match skipWs rest2 with
            | ':' :: rest3 =>
              match parseStep fuel .value (skipWs rest3) with
              | some (_, rest4) => parseStep fuel .objTail (skipWs rest4)
              | none => none
            | _ => none
          | none => none
        else none
    | .objTail =>
      match cs with
      | [] => none
      | c :: rest =>
        if c = rcurly then some (JsonVal.obj, rest)
        else if c = ',' then
          match skipWs rest with
          | [] => none
          | c2 :: rest2 =>
            if c2 = quoteChar then
              match parseStrBody (rest2.length + 1) rest2 [] with
              | some (_, rest3) =>
                match skipWs rest3 with
                | ':' :: rest4 =>
                  match parseStep fuel .value (skipWs rest4) with
                  | some (_, rest5) => parseStep fuel .objTail (skipWs rest5)
                  | none => none
                | _ => none
              | none => none
            else none
        else none

/-- Modelled from the spec: json.loads of the Python standard library,
which is not part of src/ (the validity gate reads "a string that
successfully parses as JSON").  Parses one JSON document surrounded by
optional whitespace; returns none exactly when json.loads raises. -/
def json_loads (s : String) : Option JsonVal :=
  match parseStep (3 * s.length + 8) .value (skipWs s.data) with
  | some (v, rest) => if skipWs rest = [] then some v else none
  | none => none

/-- The JSON-validity gate (router_engine.py, lines 133-143,
_is_valid_json_output): a dict or list is valid; a string is valid iff it
parses with json.loads; anything else, including Python None, is not. -/
def is_valid_json_output : Option JsonVal → Bool
  | some JsonVal.obj => true
  | some JsonVal.arr => true
  | some (JsonVal.str s) => (json_loads s).isSome
  | _ => false

/-- Mapping-or-sequence check (isinstance(output, (dict, list))). -/
def isMappingOrSequence : JsonVal → Bool
  | .obj => true
  | .arr => true
  | _ => false

/-- Success-path output post-processing shared by the three adapters
(ollama.py lines 91-96, openrouter.py lines 101-105, claude.py lines
105-109): the backend text is parsed with json.loads; on success the
parsed document becomes the output, otherwise the raw text does. -/
def adapter_output (content : String) : JsonVal :=
  match json_loads content with
  | some v => v
  | none => JsonVal.str content

/-! ## Hosted adapter credential guards (openrouter.py, claude.py) -/

/-- OpenRouterAdapter.generate (openrouter.py, lines 37-55): when the API
key is empty (is_configured is bool(settings.OPENROUTER_API_KEY)), the
fixed failure dict is returned before any HTTP activity; otherwise the
call proceeds and backend stands for the outcome of the entire HTTP
interaction. -/
def openrouter_generate (api_key : String) (backend : AttemptRes) : AttemptRes :=
  if api_key = "" then
    { success := false, output := none, latency_ms := 0, token_count := 0,
      error := some "OPENROUTER_API_KEY not configured" }
  else backend

/-- ClaudeAdapter.generate (claude.py, lines 39-57): the same guard for
the premium adapter and ANTHROPIC_API_KEY. -/
def claude_generate (api_key : String) (backend : AttemptRes) : AttemptRes :=
  if api_key = "" then
    { success := false, output := none, latency_ms := 0, token_count := 0,
      error := some "ANTHROPIC_API_KEY not configured" }
  else backend

/-! ## Decision engine (router_engine.py, compute_decision) -/

/-- compute_decision: pure routing decision from request, policy and
governance (router_engine.py, lines 54-111).  Governance is accepted but
does not alter the rules, exactly as in the source. -/
def compute_decision (request : RunRequest) (policy : RoutingPolicy)
    (_governance : Governance) : RouterDecision :=
  let prompt_tokens := estimate_tokens request.prompt
  let context_tokens := estimate_tokens (request.context.getD "")
  let total_tokens := prompt_tokens + context_tokens
  -- Rule 1: premium only if sensitivity = high
  if request.sensitivity = Sensitivity.high ∧
      policy.premium_trigger = "sensitivity_high_only" then
    { route := .premium
      model := (policy.models.lookup "premium").getD "claude-sonnet-4-20250514"
      reason := "Sensitivity=high triggers premium tier per policy"
      confidence := 95/100
      escalation_level := 2
      cost_estimate := estimate_cost "premium" (total_tokens * 2) }
  -- Rule 2: context overflow, escalate to market
  else if total_tokens > policy.context_threshold_tokens ∧
      policy.escalation_rules.context_overflow_escalate then
    let thr := policy.context_threshold_tokens
    { route := .market
      model := (policy.models.lookup "market").getD "meta-llama/llama-3.1-70b-instruct"
      reason := s!"Context size ({total_tokens} tokens) exceeds threshold ({thr}), escalating to market tier"
      confidence := 85/100
      escalation_level := 1
      cost_estimate := estimate_cost "market" (total_tokens * 2) }
  -- Rule 3: default to local
  else
    let pct : Int := (policy.local_share * 100).floor
    { route := .local_
      model := (policy.models.lookup "local").getD "llama3.1:8b"
      reason := s!"Default routing to local tier ({pct}% local policy)"
      confidence := 90/100
      escalation_level := 0
      cost_estimate := 0 }

/-! ## Fallback executor (router_engine.py, run_with_fallback)

The adapter calls are the only external inputs of the executor; they are
modelled by an oracle mapping the index of the call (0 for the first
adapter call of the run, and so on) to the adapter result dict.  Audit
events are accumulated in the state; task status updates are returned as
the terminal status string. -/

/-- Mutable state of the executor: the oracle call counter plus the
local_fail_count, total_latency and last_error variables of
run_with_fallback, and the audit events written so far. -/
structure ExecState where
  counter : Nat
  local_fail_count : Nat
  total_latency : Nat
  last_error : Option String
  events : List Event
deriving Repr

/-- The initial executor state. -/
def initState : ExecState :=
  { counter := 0, local_fail_count := 0, total_latency := 0,
    last_error := none, events := [] }

/-- The execution audit event written for one adapter attempt
(router_engine.py, lines 185-196). -/
def execEvent (tier : Tier) (model : String) (r : AttemptRes) : Event :=
  { event_type := "execution", tier := tier.value, model := model,
    success := r.success, latency_ms := r.latency_ms,
    token_count := r.token_count, error_message := r.error }

/-- The invalid_json_escalation audit event (router_engine.py, lines
203-212). -/
def invalidJsonEvent (tier : Tier) (model : String) : Event :=
  { event_type := "invalid_json_escalation", tier := tier.value,
    model := model, success := false, latency_ms := 0, token_count := 0,
    error_message := some "Output is not valid JSON" }

/-- The escalation audit event written after repeated local failures
(router_engine.py, lines 249-257). -/
def escalationEvent (tier : Tier) (model : String) (n : Nat) : Event :=
  { event_type := "escalation", tier := tier.value, model := model,
    success := false, latency_ms := 0, token_count := 0,
    error_message := some s!"Local failed {n} times" }

/-- The reason suffix appended on escalated success (router_engine.py,
line 222). -/
def escalSuffix (n : Nat) : String :=
  if 0 < n then s!"; escalated {n}x" else ""

/-- The final Decision constructed on acceptance (router_engine.py, lines
219-226): route and model replaced, confidence decremented by 0.15 per
escalation step and floored at 0.5, reason suffixed, cost recomputed from
the accepted token count. -/
def mkFinalDecision (decision : RouterDecision) (tier : Tier)
    (model : String) (escalation : Nat) (token_count : Nat) : RouterDecision :=
  { route := tier
    model := model
    reason := decision.reason ++ escalSuffix escalation
    confidence := max (1/2 : ℚ) (decision.confidence - (escalation : ℚ) * (15/100))
    escalation_level := escalation
    cost_estimate := estimate_cost tier.value token_count }

/-- Python string formatting of an optional string: None prints as the
four characters None. -/
def pyOptStr : Option String → String
  | none => "None"
  | some s => s

/-- The attempt loop on one tier (router_engine.py, lines 178-244): runs
up to the given number of attempts; each attempt consumes one oracle call,
adds its latency, and logs an execution event.  A successful attempt with
invalid JSON output escalates (one invalid_json_escalation event,
last_error set, loop broken) when the policy says so, and is otherwise
accepted; an accepted attempt yields the success RouterResult.  A failed
attempt records last_error, bumps local_fail_count on the local tier, and
continues. -/
def attemptLoop (oracle : Nat → AttemptRes) (policy : RoutingPolicy)
    (decision : RouterDecision) (task_id : String) (tier : Tier)
    (model : String) (escalation : Nat) :
    Nat → ExecState → ExecState × Option RouterResult
  | 0, st => (st, none)
  | fuel + 1, st =>
    let result := oracle st.counter
    let st1 : ExecState :=
      { counter := st.counter + 1
        local_fail_count := st.local_fail_count
        total_latency := st.total_latency + result.latency_ms
        last_error := st.last_error
        events := st.events ++ [execEvent tier model result] }
    if result.success then
      if is_valid_json_output result.output = false ∧
          policy.escalation_rules.invalid_json_escalate = true then
        ({ st1 with
            events := st1.events ++ [invalidJsonEvent tier model]
            last_error := some "Invalid JSON output" }, none)
      else
        (st1, some
          { task_id := task_id
            decision := mkFinalDecision decision tier model escalation result.token_count
            output := result.output
            success := true
            tier_used := tier
            model_used := model
            latency_ms := st1.total_latency
            error := none })
    else
      let st2 : ExecState := { st1 with last_error := result.error }
      let st3 : ExecState :=
        if tier = Tier.local_ then
          { st2 with local_fail_count := st2.local_fail_count + 1 }
        else st2
      attemptLoop oracle policy decision task_id tier model escalation fuel st3

/-- The per-attempt budget of a tier: max_local_retries for local, one
attempt for every other tier (router_engine.py, line 176). -/
def tierBudget (policy : RoutingPolicy) (tier : Tier) : Nat :=
  if tier = Tier.local_ then policy.max_local_retries else 1

/-- The tier loop of run_with_fallback (router_engine.py, lines 170-271):
walks the remaining chain, resolving the model per tier, running the
attempt loop, emitting the informational escalation event after local
failures, and advancing; when the chain is exhausted it returns the
failure RouterResult built from the original decision and marks the task
failed. -/
def tierLoop (oracle : Nat → AttemptRes) (policy : RoutingPolicy)
    (decision : RouterDecision) (task_id : String) :
    List Tier → Nat → ExecState → ExecState × RouterResult × String
  | [], _, st =>
    (st,
     { task_id := task_id
       decision := decision
       output := none
       success := false
       tier_used := decision.route
       model_used := decision.model
       latency_ms := st.total_latency
       error := some ("All tiers exhausted. Last error: " ++ pyOptStr st.last_error) },
     "failed")
  | tier :: rest, escalation, st =>
    let model := (policy.models.lookup tier.value).getD decision.model
    match attemptLoop oracle policy decision task_id tier model escalation
        (tierBudget policy tier) st with
    | (st1, some res) => (st1, res, "completed")
    | (st1, none) =>
      let st2 : ExecState :=
        if tier = Tier.local_ ∧
            policy.escalation_rules.local_fail_count ≤ st1.local_fail_count then
          { st1 with events := st1.events ++ [escalationEvent tier model st1.local_fail_count] }
        else st1
      tierLoop oracle policy decision task_id rest (escalation + 1) st2

/-- The starting chain position (router_engine.py, lines 160-164): the
index of the first occurrence of the decided route in the fallback chain,
or 0 when the route does not occur. -/
def start_index : List Tier → Tier → Nat
  | [], _ => 0
  | t :: ts, route =>
    if t = route then 0
    else if route ∈ ts then start_index ts route + 1
    else 0

/-- run_with_fallback (router_engine.py, lines 146-271): executes along
the fallback chain from the decided tier onward.  Returns the final
executor state (with the audit events written), the RouterResult, and the
terminal task status. -/
def run_with_fallback (oracle : Nat → AttemptRes) (_request : RunRequest)
    (policy : RoutingPolicy) (_governance : Governance)
    (decision : RouterDecision) (task_id : String) :
    ExecState × RouterResult × String :=
  let chain := policy.fallback_chain
  tierLoop oracle policy decision task_id
    (chain.drop (start_index chain decision.route)) 0 initState

/-! ## Orchestrator (router_engine.py, handle_run) -/

/-- The final_result audit event written by handle_run (router_engine.py,
lines 335-345). -/
def finalResultEvent (result : RouterResult) : Event :=
  { event_type := "final_result", tier := result.tier_used.value,
    model := result.model_used, success := result.success,
    latency_ms := result.latency_ms, token_count := 0,
    error_message := result.error }

/-- handle_run (router_engine.py, lines 276-347), with the registry reads
and inserts abstracted: the policy and governance snapshots and the task
id arrive as arguments, the decision is computed and execution driven with
the fallback chain, and one final_result event is appended after the
executor events.  Returns the RouterResult, the log_event trail of the
run, and the terminal task status. -/
def handle_run (oracle : Nat → AttemptRes) (policy : RoutingPolicy)
    (governance : Governance) (request : RunRequest) (task_id : String) :
    RouterResult × List Event × String :=
  let decision := compute_decision request policy governance
  let (st, result, status) :=
    run_with_fallback oracle request policy governance decision task_id
  (result, st.events ++ [finalResultEvent result], status)

/-! ## Event counting -/

/-- Number of events of one type on one tier. -/
def execCount (evs : List Event) (tv : String) : Nat :=
  (evs.filter (fun e => e.event_type == "execution" && e.tier == tv)).length

/-- Number of events of one type. -/
def typeCount (evs : List Event) (ty : String) : Nat :=
  (evs.filter (fun e => e.event_type == ty)).length

/-- The tier of the last execution event of a trail. -/
def lastExecutionTier (evs : List Event) : Option String :=
  ((evs.filter (fun e => e.event_type == "execution")).getLast?).map (fun e => e.tier)

/-! ## Fixtures for concrete runs -/

/-- Total per-tier attempt budgets of a chain for one tier value: the sum
of the budgets of the occurrences of the tier in the chain. -/
def chainBudget (policy : RoutingPolicy) : List Tier → String → Nat
  | [], _ => 0
  | t :: ts, tv => (if t.value = tv then tierBudget policy t else 0) + chainBudget policy ts tv


/-- Default governance fixture. -/
def govD : Governance := {}

/-- Default policy fixture. -/
def polD : RoutingPolicy := {}

/-- A small normal-sensitivity request. -/
def reqD : RunRequest := { task_type := "classify", prompt := "hi" }

/-- The decision the engine makes for reqD under the defaults. -/
def decD : RouterDecision := compute_decision reqD polD govD

/-- Adapter oracle: every attempt succeeds with a JSON object. -/
def okOracle : Nat → AttemptRes :=
  fun _ => { success := true, output := some JsonVal.obj, latency_ms := 5,
             token_count := 100, error := none }

/-- Adapter oracle: every attempt fails with an HTTP 500 error. -/
def failOracle : Nat → AttemptRes :=
  fun _ => { success := false, output := none, latency_ms := 7, token_count := 0,
             error := some "Ollama returned 500: boom" }

/-- Adapter oracle: every attempt succeeds with non-JSON text. -/
def invalidOracle : Nat → AttemptRes :=
  fun _ => { success := true, output := some (JsonVal.str "not json"), latency_ms := 3,
             token_count := 10, error := none }

/-- Policy with a zero-length fallback chain. -/
def polEmpty : RoutingPolicy := { fallback_chain := [] }

/-- Policy whose fallback chain lists the local tier twice. -/
def polDup : RoutingPolicy :=
  { fallback_chain := [.local_, .local_], max_local_retries := 1,
    escalation_rules := { local_fail_count := 5 } }

/-- Policy with a tiny context threshold. -/
def polThr : RoutingPolicy := { context_threshold_tokens := 3 }

/-- Request whose estimated tokens exceed the tiny threshold. -/
def reqBig : RunRequest := { task_type := "classify", prompt := "aaaaaaaaaaaaaaaa" }

/-- Request with high sensitivity. -/
def reqHigh : RunRequest := { task_type := "classify", prompt := "leak?", sensitivity := .high }

/-- Stand-in for a successful HTTP interaction of a configured adapter. -/
def httpStub : AttemptRes :=
  { success := true, output := some JsonVal.obj, latency_ms := 9, token_count := 50, error := none }

/-- Oracle whose attempts are the market adapter with no API key. -/
def unconfOracle : Nat → AttemptRes := fun _ => openrouter_generate "" httpStub

/-! ## Auxiliary lemmas about the executor -/

/-- Any result the attempt loop returns is a success result for the tier
it was running, with the final decision built by mkFinalDecision from the
token count of the accepting attempt: the last oracle call, indexed by the
final call counter minus one. -/
theorem attemptLoop_some (oracle : Nat → AttemptRes) (policy : RoutingPolicy)
    (decision : RouterDecision) (task_id : String) (tier : Tier)
    (model : String) (escalation : Nat) :
    ∀ fuel st st' res,
      attemptLoop oracle policy decision task_id tier model escalation fuel st = (st', some res) →
      res.success = true ∧ res.tier_used = tier ∧ res.model_used = model ∧
      res.decision = mkFinalDecision decision tier model escalation
        ((oracle (st'.counter - 1)).token_count) := by
  intro fuel
  induction fuel with
  | zero =>
    intro st st' res h
    simp [attemptLoop] at h
  | succ n ih =>
    intro st st' res h
    rw [attemptLoop] at h
    split_ifs at h with h1 h2
    · simp at h
    · rw [Prod.mk.injEq, Option.some.injEq] at h
      obtain ⟨hst, hres⟩ := h
      subst hres
      subst hst
      exact ⟨rfl, rfl, rfl, rfl⟩
    · exact ih _ _ _ h
    · exact ih _ _ _ h

/-- Shape of the failure outcome of the tier loop: status failed, the
original decision carried unchanged, tier and model of the original
decision, and the exhaustion error string built from last_error. -/
theorem tierLoop_fail (oracle : Nat → AttemptRes) (policy : RoutingPolicy)
    (decision : RouterDecision) (task_id : String) :
    ∀ chain escalation st st' res status,
      tierLoop oracle policy decision task_id chain escalation st = (st', res, status) →
      res.success = false →
      status = "failed" ∧ res.decision = decision ∧ res.tier_used = decision.route ∧
      res.model_used = decision.model ∧ res.output = none ∧
      res.latency_ms = st'.total_latency ∧
      res.error = some ("All tiers exhausted. Last error: " ++ pyOptStr st'.last_error) := by
  intro chain
  induction chain with
  | nil =>
    intro esc st st' res status h _
    rw [tierLoop] at h
    rw [Prod.mk.injEq, Prod.mk.injEq] at h
    obtain ⟨hst, hres, hstatus⟩ := h
    subst hst; subst hres; subst hstatus
    exact ⟨rfl, rfl, rfl, rfl, rfl, rfl, rfl⟩
  | cons tier rest ih =>
    intro esc st st' res status h hf
    rw [tierLoop] at h
    rcases hA : attemptLoop oracle policy decision task_id tier
        ((policy.models.lookup tier.value).getD decision.model) esc
        (tierBudget policy tier) st with ⟨st1, r?⟩
    rw [hA] at h
    cases r? with
    | some r =>
      simp only [Prod.mk.injEq] at h
      obtain ⟨-, hres, -⟩ := h
      subst hres
      have := (attemptLoop_some oracle policy decision task_id tier _ esc _ _ _ _ hA).1
      rw [this] at hf
      exact absurd hf (by simp)
    | none =>
      exact ih _ _ _ _ _ h hf

/-- Shape of the success outcome of the tier loop: status completed, the
tier used occurs in the walked chain at the offset recorded as the
escalation amount, the model is the policy-resolved one, and the decision
is built by mkFinalDecision from the token count of the accepting attempt,
the last oracle call made (final counter minus one). -/
theorem tierLoop_success (oracle : Nat → AttemptRes) (policy : RoutingPolicy)
    (decision : RouterDecision) (task_id : String) :
    ∀ chain escalation st st' res status,
      tierLoop oracle policy decision task_id chain escalation st = (st', res, status) →
      res.success = true →
      status = "completed" ∧
      ∃ p, chain[p]? = some res.tier_used ∧
        res.model_used = (policy.models.lookup res.tier_used.value).getD decision.model ∧
        res.decision = mkFinalDecision decision res.tier_used res.model_used (escalation + p)
          ((oracle (st'.counter - 1)).token_count) := by
  intro chain
  induction chain with
  | nil =>
    intro esc st st' res status h hs
    rw [tierLoop] at h
    rw [Prod.mk.injEq, Prod.mk.injEq] at h
    obtain ⟨-, hres, -⟩ := h
    subst hres
    simp at hs
  | cons tier rest ih =>
    intro esc st st' res status h hs
    rw [tierLoop] at h
    rcases hA : attemptLoop oracle policy decision task_id tier
        ((policy.models.lookup tier.value).getD decision.model) esc
        (tierBudget policy tier) st with ⟨st1, r?⟩
    rw [hA] at h
    cases r? with
    | some r =>
      simp only [Prod.mk.injEq] at h
      obtain ⟨hst, hres, hstatus⟩ := h
      subst hres
      obtain ⟨-, htier, hmodel, hdec⟩ :=
        attemptLoop_some oracle policy decision task_id tier _ esc _ _ _ _ hA
      subst hst
      refine ⟨hstatus.symm, 0, ?_, ?_, ?_⟩
      · rw [htier]; simp
      · rw [htier, hmodel]
      · rw [htier, hmodel, Nat.add_zero]; exact hdec
    | none =>
      obtain ⟨hstatus, p, hget, hmodel, hdec⟩ := ih _ _ _ _ _ h hs
      refine ⟨hstatus, p + 1, ?_, hmodel, ?_⟩
      · simpa using hget
      · have : esc + (p + 1) = esc + 1 + p := by omega
        rw [this]; exact hdec

/-- Execution-event counts add over list append. -/
theorem execCount_append (a b : List Event) (tv : String) :
    execCount (a ++ b) tv = execCount a tv + execCount b tv := by
  simp [execCount, List.filter_append]

/-- Event-type counts add over list append. -/
theorem typeCount_append (a b : List Event) (ty : String) :
    typeCount (a ++ b) ty = typeCount a ty + typeCount b ty := by
  simp [typeCount, List.filter_append]

/-- Execution-event count of a singleton trail. -/
theorem execCount_singleton (e : Event) (tv : String) :
    execCount [e] tv = if e.event_type = "execution" ∧ e.tier = tv then 1 else 0 := by
  by_cases h : e.event_type = "execution" ∧ e.tier = tv
  · simp [execCount, List.filter_singleton, h.1, h.2]
  · rw [if_neg h]
    rcases not_and_or.mp h with h1 | h1 <;>
      simp [execCount, List.filter_singleton, h1]

/-- Event-type count of a singleton trail. -/
theorem typeCount_singleton (e : Event) (ty : String) :
    typeCount [e] ty = if e.event_type = ty then 1 else 0 := by
  by_cases h : e.event_type = ty
  · simp [typeCount, List.filter_singleton, h]
  · simp [typeCount, List.filter_singleton, h]

/-- Execution-event count of the empty trail. -/
theorem execCount_nil (tv : String) : execCount [] tv = 0 := rfl

/-- Event-type count of the empty trail. -/
theorem typeCount_nil (ty : String) : typeCount [] ty = 0 := rfl

/-- The attempt loop only appends events: at most fuel execution events,
all on its own tier, never a final_result event, and at least one
execution event when the fuel is positive. -/
theorem attemptLoop_events (oracle : Nat → AttemptRes) (policy : RoutingPolicy)
    (decision : RouterDecision) (task_id : String) (tier : Tier)
    (model : String) (escalation : Nat) :
    ∀ fuel st, ∃ Δ,
      (attemptLoop oracle policy decision task_id tier model escalation fuel st).1.events
        = st.events ++ Δ ∧
      execCount Δ tier.value ≤ fuel ∧
      (∀ tv, tv ≠ tier.value → execCount Δ tv = 0) ∧
      typeCount Δ "final_result" = 0 ∧
      (1 ≤ fuel → 1 ≤ typeCount Δ "execution") := by
  intro fuel
  induction fuel with
  | zero =>
    intro st
    exact ⟨[], by simp [attemptLoop], by simp [execCount_nil], fun _ _ => execCount_nil _,
      typeCount_nil _, by omega⟩
  | succ n ih =>
    intro st
    rw [attemptLoop]
    split_ifs with h1 h2
    · refine ⟨[execEvent tier model (oracle st.counter), invalidJsonEvent tier model],
        by simp, ?_, ?_, ?_, ?_⟩
      · show execCount ([execEvent tier model (oracle st.counter)] ++ [invalidJsonEvent tier model]) tier.value ≤ n + 1
        rw [execCount_append, execCount_singleton, execCount_singleton]
        simp [execEvent, invalidJsonEvent]
      · intro tv htv
        show execCount ([execEvent tier model (oracle st.counter)] ++ [invalidJsonEvent tier model]) tv = 0
        rw [execCount_append, execCount_singleton, execCount_singleton]
        simp [execEvent, invalidJsonEvent, Ne.symm htv]
      · show typeCount ([execEvent tier model (oracle st.counter)] ++ [invalidJsonEvent tier model]) "final_result" = 0
        rw [typeCount_append, typeCount_singleton, typeCount_singleton]
        simp [execEvent, invalidJsonEvent]
      · intro _
        show 1 ≤ typeCount ([execEvent tier model (oracle st.counter)] ++ [invalidJsonEvent tier model]) "execution"
        rw [typeCount_append, typeCount_singleton]
        simp [execEvent]
    · refine ⟨[execEvent tier model (oracle st.counter)], by simp, ?_, ?_, ?_, ?_⟩
      · rw [execCount_singleton]; simp [execEvent]
      · intro tv htv
        rw [execCount_singleton]; simp [execEvent, Ne.symm htv]
      · rw [typeCount_singleton]; simp [execEvent]
      · intro _; rw [typeCount_singleton]; simp [execEvent]
    all_goals {
      obtain ⟨Δ, hev, hle, hother, hfr, hex⟩ := ih _
      refine ⟨execEvent tier model (oracle st.counter) :: Δ, ?_, ?_, ?_, ?_, ?_⟩
      · rw [hev]; simp
      · show execCount ([execEvent tier model (oracle st.counter)] ++ Δ) tier.value ≤ n + 1
        rw [execCount_append, execCount_singleton]
        simp only [execEvent]
        simp
        omega
      · intro tv htv
        show execCount ([execEvent tier model (oracle st.counter)] ++ Δ) tv = 0
        rw [execCount_append, execCount_singleton, hother tv htv]
        simp [execEvent, Ne.symm htv]
      · show typeCount ([execEvent tier model (oracle st.counter)] ++ Δ) "final_result" = 0
        rw [typeCount_append, typeCount_singleton, hfr]
        simp [execEvent]
      · intro _
        show 1 ≤ typeCount ([execEvent tier model (oracle st.counter)] ++ Δ) "execution"
        rw [typeCount_append, typeCount_singleton]
        simp [execEvent]
    }

/-- An escalation event is not an execution event. -/
theorem execCount_esc (tier : Tier) (model : String) (n : Nat) (tv : String) :
    execCount [escalationEvent tier model n] tv = 0 := by
  rw [execCount_singleton]; simp [escalationEvent]

/-- The tier loop only appends events: per tier value at most the summed
budgets of that tier in the walked chain, never a final_result event, and
at least one execution event when the first tier has positive budget. -/
theorem tierLoop_events (oracle : Nat → AttemptRes) (policy : RoutingPolicy)
    (decision : RouterDecision) (task_id : String) :
    ∀ chain escalation st, ∃ Δ,
      (tierLoop oracle policy decision task_id chain escalation st).1.events
        = st.events ++ Δ ∧
      (∀ tv, execCount Δ tv ≤ chainBudget policy chain tv) ∧
      typeCount Δ "final_result" = 0 ∧
      (∀ t ts, chain = t :: ts → 1 ≤ tierBudget policy t → 1 ≤ typeCount Δ "execution") := by
  intro chain
  induction chain with
  | nil =>
    intro esc st
    exact ⟨[], by simp [tierLoop], fun tv => by simp [execCount_nil, chainBudget],
      typeCount_nil _, by intro t ts h; exact absurd h (by simp)⟩
  | cons tier rest ih =>
    intro esc st
    rw [tierLoop]
    obtain ⟨Δ₁, hev₁, hle₁, hother₁, hfr₁, hex₁⟩ :=
      attemptLoop_events oracle policy decision task_id tier
        ((policy.models.lookup tier.value).getD decision.model) esc
        (tierBudget policy tier) st
    rcases hA : attemptLoop oracle policy decision task_id tier
        ((policy.models.lookup tier.value).getD decision.model) esc
        (tierBudget policy tier) st with ⟨st1, r?⟩
    rw [hA] at hev₁
    cases r? with
    | some r =>
      refine ⟨Δ₁, hev₁, ?_, hfr₁, ?_⟩
      · intro tv
        rw [chainBudget]
        by_cases h : tier.value = tv
        · subst h; rw [if_pos rfl]; omega
        · rw [if_neg h, hother₁ tv (Ne.symm h)]; omega
      · intro t ts hc hb
        obtain ⟨rfl, -⟩ : t = tier ∧ ts = rest := by
          constructor <;> [exact (List.cons.injEq _ _ _ _ ▸ hc).1.symm;
            exact (List.cons.injEq _ _ _ _ ▸ hc).2.symm]
        exact hex₁ hb
    | none =>
      dsimp only
      by_cases hEsc : tier = Tier.local_ ∧
          policy.escalation_rules.local_fail_count ≤ st1.local_fail_count
      · rw [if_pos hEsc]
        obtain ⟨Δ₂, hev₂, hle₂, hfr₂, hex₂⟩ := ih (esc + 1)
          { st1 with events := st1.events ++ [escalationEvent tier
              ((policy.models.lookup tier.value).getD decision.model) st1.local_fail_count] }
        refine ⟨Δ₁ ++ [escalationEvent tier
            ((policy.models.lookup tier.value).getD decision.model) st1.local_fail_count] ++ Δ₂,
          ?_, ?_, ?_, ?_⟩
        · rw [hev₂]
          have h1 : st1.events = st.events ++ Δ₁ := hev₁
          rw [h1]; simp
        · intro tv
          rw [chainBudget]
          rw [execCount_append, execCount_append, execCount_esc]
          have h2 := hle₂ tv
          by_cases h : tier.value = tv
          · subst h; rw [if_pos rfl]; omega
          · rw [if_neg h, hother₁ tv (Ne.symm h)]; omega
        · rw [typeCount_append, typeCount_append, hfr₁, hfr₂, typeCount_singleton]
          simp [escalationEvent]
        · intro t ts hc hb
          obtain rfl : t = tier := (List.cons.injEq _ _ _ _ ▸ hc).1.symm
          rw [typeCount_append, typeCount_append]
          have := hex₁ hb
          omega
      · rw [if_neg hEsc]
        obtain ⟨Δ₂, hev₂, hle₂, hfr₂, hex₂⟩ := ih (esc + 1) st1
        refine ⟨Δ₁ ++ Δ₂, ?_, ?_, ?_, ?_⟩
        · rw [hev₂]
          have h1 : st1.events = st.events ++ Δ₁ := hev₁
          rw [h1]; simp
        · intro tv
          rw [chainBudget, execCount_append]
          have h2 := hle₂ tv
          by_cases h : tier.value = tv
          · subst h; rw [if_pos rfl]; omega
          · rw [if_neg h, hother₁ tv (Ne.symm h)]; omega
        · rw [typeCount_append, hfr₁, hfr₂]
        · intro t ts hc hb
          obtain rfl : t = tier := (List.cons.injEq _ _ _ _ ▸ hc).1.symm
          rw [typeCount_append]
          have := hex₁ hb
          omega

/-- Tier values are distinct strings. -/
theorem Tier.value_injective : ∀ a b : Tier, a.value = b.value → a = b := by
  intro a b
  cases a <;> cases b <;> simp [Tier.value]

/-- A tier absent from a chain contributes no budget. -/
theorem chainBudget_not_mem (policy : RoutingPolicy) :
    ∀ (chain : List Tier) (t : Tier), t ∉ chain → chainBudget policy chain t.value = 0 := by
  intro chain
  induction chain with
  | nil => intro t _; rfl
  | cons u us ih =>
    intro t ht
    rw [List.mem_cons, not_or] at ht
    rw [chainBudget, ih t ht.2, if_neg (fun h => ht.1 (Tier.value_injective u t h).symm)]

/-- On a duplicate-free chain the summed budget of a tier value is at most
that single tier budget. -/
theorem chainBudget_nodup (policy : RoutingPolicy) :
    ∀ (chain : List Tier) (t : Tier), chain.Nodup →
      chainBudget policy chain t.value ≤ tierBudget policy t := by
  intro chain
  induction chain with
  | nil => intro t _; exact Nat.zero_le _
  | cons u us ih =>
    intro t hnd
    rw [List.nodup_cons] at hnd
    rw [chainBudget]
    by_cases h : u = t
    · subst h
      rw [if_pos rfl, chainBudget_not_mem policy us u hnd.1]
      omega
    · rw [if_neg (fun hv => h (Tier.value_injective u t hv))]
      have := ih t hnd.2
      omega

/-- The starting index lies inside any non-empty chain. -/
theorem start_index_lt : ∀ (chain : List Tier) (route : Tier),
    chain ≠ [] → start_index chain route < chain.length := by
  intro chain
  induction chain with
  | nil => intro route h; exact absurd rfl h
  | cons t ts ih =>
    intro route _
    rw [start_index]
    by_cases h1 : t = route
    · rw [if_pos h1]; simp
    · rw [if_neg h1]
      by_cases h2 : route ∈ ts
      · rw [if_pos h2]
        have : ts ≠ [] := by rintro rfl; simp at h2
        have := ih route this
        simp only [List.length_cons]
        omega
      · rw [if_neg h2]; simp

/-- Every tier budget is positive when max_local_retries is. -/
theorem tierBudget_pos (policy : RoutingPolicy) (h : 1 ≤ policy.max_local_retries) :
    ∀ t : Tier, 1 ≤ tierBudget policy t := by
  intro t
  rw [tierBudget]
  split_ifs <;> omega

/-- C5: for every request with sensitivity high and every policy with
premium_trigger sensitivity_high_only, the decision routes to premium
regardless of context size, with confidence 0.95, escalation_level 2 and
the fixed reason string; the rule precedes the context-overflow rule. -/
theorem sensitivity_premium (request : RunRequest) (policy : RoutingPolicy)
    (governance : Governance)
    (hs : request.sensitivity = Sensitivity.high)
    (ht : policy.premium_trigger = "sensitivity_high_only") :
    (compute_decision request policy governance).route = Tier.premium ∧
    (compute_decision request policy governance).confidence = 95/100 ∧
    (compute_decision request policy governance).escalation_level = 2 ∧
    (compute_decision request policy governance).reason =
      "Sensitivity=high triggers premium tier per policy" := by
  unfold compute_decision
  rw [if_pos ⟨hs, ht⟩]
  exact ⟨rfl, rfl, rfl, rfl⟩

/-- C4: for every request with sensitivity other than high, when
context_overflow_escalate holds, the decision routes to market exactly
when the estimated token total, each part max(1, len/4) and summed,
exceeds context_threshold_tokens; and then confidence is 0.85 and
escalation_level is 1. -/
theorem context_overflow_gate (request : RunRequest) (policy : RoutingPolicy)
    (governance : Governance)
    (hs : request.sensitivity ≠ Sensitivity.high)
    (he : policy.escalation_rules.context_overflow_escalate = true) :
    ((compute_decision request policy governance).route = Tier.market ↔
      policy.context_threshold_tokens <
        estimate_tokens request.prompt + estimate_tokens (request.context.getD "")) ∧
    (policy.context_threshold_tokens <
        estimate_tokens request.prompt + estimate_tokens (request.context.getD "") →
      (compute_decision request policy governance).confidence = 85/100 ∧
      (compute_decision request policy governance).escalation_level = 1) := by
  unfold compute_decision
  rw [if_neg (fun h => hs h.1)]
  by_cases hgt : policy.context_threshold_tokens <
      estimate_tokens request.prompt + estimate_tokens (request.context.getD "")
  · rw [if_pos ⟨hgt, he⟩]
    exact ⟨⟨fun _ => hgt, fun _ => rfl⟩, fun _ => ⟨rfl, rfl⟩⟩
  · rw [if_neg (fun hc => hgt hc.1)]
    refine ⟨⟨fun hroute => ?_, fun h => absurd h hgt⟩, fun h => absurd h hgt⟩
    exact absurd hroute (by simp)

/-- C8: whenever the executor exhausts the chain without accepting an
output, it marks the task failed and returns success false, tier_used and
model_used of the original decision, and the exhaustion error built from
last_error; a zero-length chain makes no attempt at all, leaves last_error
nil and yields the error string ending in None. -/
theorem exhaustion_failure (oracle : Nat → AttemptRes) (request : RunRequest)
    (policy : RoutingPolicy) (governance : Governance)
    (decision : RouterDecision) (task_id : String) :
    ((run_with_fallback oracle request policy governance decision task_id).2.1.success = false →
      (run_with_fallback oracle request policy governance decision task_id).2.2 = "failed" ∧
      (run_with_fallback oracle request policy governance decision task_id).2.1.tier_used = decision.route ∧
      (run_with_fallback oracle request policy governance decision task_id).2.1.model_used = decision.model ∧
      (run_with_fallback oracle request policy governance decision task_id).2.1.decision = decision ∧
      (run_with_fallback oracle request policy governance decision task_id).2.1.output = none ∧
      (run_with_fallback oracle request policy governance decision task_id).2.1.error =
        some ("All tiers exhausted. Last error: " ++
          pyOptStr (run_with_fallback oracle request policy governance decision task_id).1.last_error)) ∧
    (policy.fallback_chain = [] →
      (run_with_fallback oracle request policy governance decision task_id).2.1.success = false ∧
      (run_with_fallback oracle request policy governance decision task_id).1.last_error = none ∧
      (run_with_fallback oracle request policy governance decision task_id).1.events = [] ∧
      (run_with_fallback oracle request policy governance decision task_id).1.counter = 0 ∧
      (run_with_fallback oracle request policy governance decision task_id).2.1.error =
        some "All tiers exhausted. Last error: None") := by
  constructor
  · intro hf
    rcases hEq : run_with_fallback oracle request policy governance decision task_id
      with ⟨st, res, status⟩
    rw [hEq] at hf
    have hEq' : tierLoop oracle policy decision task_id
        (policy.fallback_chain.drop (start_index policy.fallback_chain decision.route)) 0 initState
        = (st, res, status) := hEq
    obtain ⟨h1, h2, h3, h4, h5, h6, h7⟩ :=
      tierLoop_fail oracle policy decision task_id _ _ _ _ _ _ hEq' hf
    exact ⟨h1, h3, h4, h2, h5, h7⟩
  · intro hc
    have hEq : run_with_fallback oracle request policy governance decision task_id =
        tierLoop oracle policy decision task_id [] 0 initState := by
      unfold run_with_fallback
      rw [hc]
      rfl
    rw [hEq, tierLoop]
    exact ⟨rfl, rfl, rfl, rfl, rfl⟩

/-- C1 as amended: on success the escalation_level of the returned
Decision equals the chain index of the producing tier minus the start
index (the tier at start plus escalation positions is the tier used); on
failure the Result carries the original Decision unchanged, so its
escalation_level is the originally decided one, not the distance to the
last attempted tier. -/
theorem escalation_level_tracks (oracle : Nat → AttemptRes) (request : RunRequest)
    (policy : RoutingPolicy) (governance : Governance)
    (decision : RouterDecision) (task_id : String) :
    ((run_with_fallback oracle request policy governance decision task_id).2.1.success = true →
      policy.fallback_chain[start_index policy.fallback_chain decision.route +
        (run_with_fallback oracle request policy governance decision task_id).2.1.decision.escalation_level]?
        = some (run_with_fallback oracle request policy governance decision task_id).2.1.tier_used) ∧
    ((run_with_fallback oracle request policy governance decision task_id).2.1.success = false →
      (run_with_fallback oracle request policy governance decision task_id).2.1.decision = decision) := by
  rcases hEq : run_with_fallback oracle request policy governance decision task_id
    with ⟨st, res, status⟩
  have hEq' : tierLoop oracle policy decision task_id
      (policy.fallback_chain.drop (start_index policy.fallback_chain decision.route)) 0 initState
      = (st, res, status) := hEq
  constructor
  · intro hs
    obtain ⟨-, p, hget, -, hdec⟩ :=
      tierLoop_success oracle policy decision task_id _ _ _ _ _ _ hEq' hs
    have hlvl : res.decision.escalation_level = p := by
      rw [hdec]; simp [mkFinalDecision]
    rw [hlvl, ← List.getElem?_drop]
    exact hget
  · intro hf
    exact (tierLoop_fail oracle policy decision task_id _ _ _ _ _ _ hEq' hf).2.1

/-- C6: whenever the executor accepts an output, the task is completed and
the returned Decision carries the route and model of the producing tier,
cost recomputed by estimate_cost (rate times tokens over 1000) from the
token_count of the accepted attempt — the last adapter call made, indexed
by the final call counter minus one — confidence max(0.5, original minus
0.15 per escalation step), and the original reason with the
escalated-suffix appended exactly when the escalation is positive. -/
theorem success_decision_fields (oracle : Nat → AttemptRes) (request : RunRequest)
    (policy : RoutingPolicy) (governance : Governance)
    (decision : RouterDecision) (task_id : String) :
    (run_with_fallback oracle request policy governance decision task_id).2.1.success = true →
    (run_with_fallback oracle request policy governance decision task_id).2.2 = "completed" ∧
    (run_with_fallback oracle request policy governance decision task_id).2.1.decision.route =
      (run_with_fallback oracle request policy governance decision task_id).2.1.tier_used ∧
    (run_with_fallback oracle request policy governance decision task_id).2.1.decision.model =
      (run_with_fallback oracle request policy governance decision task_id).2.1.model_used ∧
    (run_with_fallback oracle request policy governance decision task_id).2.1.model_used =
      (policy.models.lookup
        (run_with_fallback oracle request policy governance decision task_id).2.1.tier_used.value).getD
        decision.model ∧
    (run_with_fallback oracle request policy governance decision task_id).2.1.decision.confidence =
      max (1/2 : ℚ) (decision.confidence -
        ((run_with_fallback oracle request policy governance decision task_id).2.1.decision.escalation_level : ℚ)
          * (15/100)) ∧
    (run_with_fallback oracle request policy governance decision task_id).2.1.decision.reason =
      decision.reason ++ escalSuffix
        (run_with_fallback oracle request policy governance decision task_id).2.1.decision.escalation_level ∧
    (run_with_fallback oracle request policy governance decision task_id).2.1.decision.cost_estimate =
      estimate_cost
        (run_with_fallback oracle request policy governance decision task_id).2.1.tier_used.value
        ((oracle
          ((run_with_fallback oracle request policy governance decision task_id).1.counter - 1)).token_count) := by
  intro hs
  rcases hEq : run_with_fallback oracle request policy governance decision task_id
    with ⟨st, res, status⟩
  rw [hEq] at hs
  have hEq' : tierLoop oracle policy decision task_id
      (policy.fallback_chain.drop (start_index policy.fallback_chain decision.route)) 0 initState
      = (st, res, status) := hEq
  obtain ⟨hstatus, p, hget, hmodel, hdec⟩ :=
    tierLoop_success oracle policy decision task_id _ _ _ _ _ _ hEq' hs
  refine ⟨hstatus, ?_, ?_, hmodel, ?_, ?_, ?_⟩ <;> rw [hdec] <;> rfl

/-- C2 as amended: under any policy whose fallback chain has no duplicate
tiers, one executor run logs at most max_local_retries execution events on
local and at most one execution event on every other tier. -/
theorem retry_budget (oracle : Nat → AttemptRes) (request : RunRequest)
    (policy : RoutingPolicy) (governance : Governance)
    (decision : RouterDecision) (task_id : String)
    (hnd : policy.fallback_chain.Nodup) :
    execCount (run_with_fallback oracle request policy governance decision task_id).1.events
      "local" ≤ policy.max_local_retries ∧
    ∀ t : Tier, t ≠ Tier.local_ →
      execCount (run_with_fallback oracle request policy governance decision task_id).1.events
        t.value ≤ 1 := by
  rcases hEq : run_with_fallback oracle request policy governance decision task_id
    with ⟨st, res, status⟩
  have hEq' : tierLoop oracle policy decision task_id
      (policy.fallback_chain.drop (start_index policy.fallback_chain decision.route)) 0 initState
      = (st, res, status) := hEq
  obtain ⟨Δ, hev, hle, -, -⟩ :=
    tierLoop_events oracle policy decision task_id
      (policy.fallback_chain.drop (start_index policy.fallback_chain decision.route)) 0 initState
  rw [hEq'] at hev
  have hev' : st.events = Δ := by
    have : (st, res, status).1.events = initState.events ++ Δ := hev
    simpa [initState] using this
  have hdnd : (policy.fallback_chain.drop
      (start_index policy.fallback_chain decision.route)).Nodup :=
    hnd.sublist (List.drop_sublist _ _)
  constructor
  · show execCount st.events "local" ≤ policy.max_local_retries
    rw [hev']
    have h1 := hle (Tier.local_.value)
    have h2 := chainBudget_nodup policy _ Tier.local_ hdnd
    have h3 : tierBudget policy Tier.local_ = policy.max_local_retries := if_pos rfl
    calc execCount Δ "local" = execCount Δ (Tier.local_.value) := rfl
      _ ≤ chainBudget policy _ (Tier.local_.value) := h1
      _ ≤ tierBudget policy Tier.local_ := h2
      _ = policy.max_local_retries := h3
  · intro t ht
    show execCount st.events t.value ≤ 1
    rw [hev']
    have h1 := hle t.value
    have h2 := chainBudget_nodup policy _ t hdnd
    have h3 : tierBudget policy t = 1 := if_neg ht
    omega

/-- C3 as amended: every run emits exactly one final_result event, whose
success field equals the success of the returned Result; and at least one
execution event provided the fallback chain is non-empty and
max_local_retries is at least one. -/
theorem audit_totality (oracle : Nat → AttemptRes) (policy : RoutingPolicy)
    (governance : Governance) (request : RunRequest) (task_id : String) :
    typeCount (handle_run oracle policy governance request task_id).2.1 "final_result" = 1 ∧
    (∃ e, (handle_run oracle policy governance request task_id).2.1.filter
        (fun ev => ev.event_type == "final_result") = [e] ∧
      e.success = (handle_run oracle policy governance request task_id).1.success) ∧
    (policy.fallback_chain ≠ [] → 1 ≤ policy.max_local_retries →
      1 ≤ typeCount (handle_run oracle policy governance request task_id).2.1 "execution") := by
  rcases hEq : run_with_fallback oracle request policy governance
    (compute_decision request policy governance) task_id with ⟨st, res, status⟩
  have hH : handle_run oracle policy governance request task_id =
      (res, st.events ++ [finalResultEvent res], status) := by
    unfold handle_run
    dsimp only
    rw [hEq]
  rw [hH]
  have hEq' : tierLoop oracle policy (compute_decision request policy governance) task_id
      (policy.fallback_chain.drop (start_index policy.fallback_chain
        (compute_decision request policy governance).route)) 0 initState
      = (st, res, status) := hEq
  obtain ⟨Δ, hev, -, hfr, hex⟩ :=
    tierLoop_events oracle policy (compute_decision request policy governance) task_id
      (policy.fallback_chain.drop (start_index policy.fallback_chain
        (compute_decision request policy governance).route)) 0 initState
  rw [hEq'] at hev
  have hev' : st.events = Δ := by
    have : (st, res, status).1.events = initState.events ++ Δ := hev
    simpa [initState] using this
  refine ⟨?_, ⟨finalResultEvent res, ?_, rfl⟩, ?_⟩
  · show typeCount (st.events ++ [finalResultEvent res]) "final_result" = 1
    rw [typeCount_append, hev', hfr, typeCount_singleton]
    simp [finalResultEvent]
  · show (st.events ++ [finalResultEvent res]).filter
        (fun ev => ev.event_type == "final_result") = [finalResultEvent res]
    rw [List.filter_append]
    have hnil : st.events.filter (fun ev => ev.event_type == "final_result") = [] := by
      have : typeCount st.events "final_result" = 0 := by rw [hev']; exact hfr
      exact List.length_eq_zero.mp this
    rw [hnil]
    simp [finalResultEvent]
  · intro hne hr
    have hslt : start_index policy.fallback_chain
        (compute_decision request policy governance).route < policy.fallback_chain.length :=
      start_index_lt _ _ hne
    have hdne : policy.fallback_chain.drop (start_index policy.fallback_chain
        (compute_decision request policy governance).route) ≠ [] := by
      rw [Ne, List.drop_eq_nil_iff]
      omega
    obtain ⟨t, ts, hcons⟩ := List.exists_cons_of_ne_nil hdne
    have h1 : 1 ≤ typeCount Δ "execution" :=
      hex t ts hcons (tierBudget_pos policy hr t)
    show 1 ≤ typeCount (st.events ++ [finalResultEvent res]) "execution"
    rw [typeCount_append, hev']
    omega

/-- C7: when an attempt succeeds but its output fails the JSON-validity
gate, then with invalid_json_escalate on, the loop writes the
invalid_json_escalation event with success false, sets last_error to
Invalid JSON output and stops attempting this tier no matter how much
retry budget remains, and the tier loop advances to the next tier; with
the flag off, the invalid output is accepted as-is in a success Result. -/
theorem invalid_json_branch (oracle : Nat → AttemptRes) (policy : RoutingPolicy)
    (decision : RouterDecision) (task_id : String) (tier : Tier) (model : String)
    (escalation fuel : Nat) (st : ExecState)
    (hS : (oracle st.counter).success = true)
    (hI : is_valid_json_output (oracle st.counter).output = false) :
    (policy.escalation_rules.invalid_json_escalate = true →
      attemptLoop oracle policy decision task_id tier model escalation (fuel + 1) st =
        ({ counter := st.counter + 1
           local_fail_count := st.local_fail_count
           total_latency := st.total_latency + (oracle st.counter).latency_ms
           last_error := some "Invalid JSON output"
           events := st.events ++ [execEvent tier model (oracle st.counter)]
             ++ [invalidJsonEvent tier model] }, none)) ∧
    (policy.escalation_rules.invalid_json_escalate = false →
      attemptLoop oracle policy decision task_id tier model escalation (fuel + 1) st =
        ({ counter := st.counter + 1
           local_fail_count := st.local_fail_count
           total_latency := st.total_latency + (oracle st.counter).latency_ms
           last_error := st.last_error
           events := st.events ++ [execEvent tier model (oracle st.counter)] },
         some { task_id := task_id
                decision := mkFinalDecision decision tier model escalation
                  (oracle st.counter).token_count
                output := (oracle st.counter).output
                success := true
                tier_used := tier
                model_used := model
                latency_ms := st.total_latency + (oracle st.counter).latency_ms
                error := none })) ∧
    (policy.escalation_rules.invalid_json_escalate = true →
      model = (policy.models.lookup tier.value).getD decision.model →
      tierBudget policy tier = fuel + 1 →
      ¬(tier = Tier.local_ ∧
          policy.escalation_rules.local_fail_count ≤ st.local_fail_count) →
      ∀ rest, tierLoop oracle policy decision task_id (tier :: rest) escalation st =
        tierLoop oracle policy decision task_id rest (escalation + 1)
          { counter := st.counter + 1
            local_fail_count := st.local_fail_count
            total_latency := st.total_latency + (oracle st.counter).latency_ms
            last_error := some "Invalid JSON output"
            events := st.events ++ [execEvent tier model (oracle st.counter)]
              ++ [invalidJsonEvent tier model] }) := by
  have hbreak : policy.escalation_rules.invalid_json_escalate = true →
      attemptLoop oracle policy decision task_id tier model escalation (fuel + 1) st =
        ({ counter := st.counter + 1
           local_fail_count := st.local_fail_count
           total_latency := st.total_latency + (oracle st.counter).latency_ms
           last_error := some "Invalid JSON output"
           events := st.events ++ [execEvent tier model (oracle st.counter)]
             ++ [invalidJsonEvent tier model] }, none) := by
    intro hesc
    rw [attemptLoop, if_pos hS, if_pos ⟨hI, hesc⟩]
  refine ⟨hbreak, ?_, ?_⟩
  · intro hesc
    rw [attemptLoop, if_pos hS, if_neg (fun hc => by rw [hesc] at hc; exact absurd hc.2 (by simp))]
  · intro hesc hM hB hNoEsc rest
    rw [tierLoop]
    rw [← hM, hB, hbreak hesc]
    dsimp only
    rw [if_neg hNoEsc]

/-- One failed attempt on a non-local tier consumes that tier and advances
the loop: one execution event, last_error recorded, no retry. -/
theorem tierLoop_fail_step (oracle : Nat → AttemptRes) (policy : RoutingPolicy)
    (decision : RouterDecision) (task_id : String) (tier : Tier)
    (rest : List Tier) (escalation : Nat) (st : ExecState)
    (hT : tier ≠ Tier.local_)
    (hF : (oracle st.counter).success = false) :
    tierLoop oracle policy decision task_id (tier :: rest) escalation st =
      tierLoop oracle policy decision task_id rest (escalation + 1)
        { counter := st.counter + 1
          local_fail_count := st.local_fail_count
          total_latency := st.total_latency + (oracle st.counter).latency_ms
          last_error := (oracle st.counter).error
          events := st.events ++ [execEvent tier
            ((policy.models.lookup tier.value).getD decision.model) (oracle st.counter)] } := by
  rw [tierLoop]
  have hB : tierBudget policy tier = 0 + 1 := by rw [tierBudget, if_neg hT]
  rw [hB, attemptLoop]
  rcases hr : oracle st.counter with ⟨su, o, l, k, e⟩
  rw [hr] at hF
  simp only at hF
  subst hF
  rw [if_neg (by simp : ¬(false = true))]
  dsimp only
  rw [if_neg hT, attemptLoop]
  dsimp only
  rw [if_neg (fun hc => hT hc.1)]

/-- C9: with an empty API key the market and premium adapters return the
fixed not-configured failure dict whatever the HTTP interaction would have
produced, with output nil, zero latency and zero tokens; in the executor
such an attempt on a hosted tier is consumed as an ordinary failed attempt
and the chain advances past the tier. -/
theorem unconfigured_adapter (oracle : Nat → AttemptRes) (policy : RoutingPolicy)
    (decision : RouterDecision) (task_id : String) (tier : Tier)
    (rest : List Tier) (escalation : Nat) (st : ExecState) (b b2 : AttemptRes) :
    (openrouter_generate "" b =
      { success := false, output := none, latency_ms := 0, token_count := 0,
        error := some "OPENROUTER_API_KEY not configured" }) ∧
    (claude_generate "" b2 =
      { success := false, output := none, latency_ms := 0, token_count := 0,
        error := some "ANTHROPIC_API_KEY not configured" }) ∧
    (tier ≠ Tier.local_ →
      oracle st.counter = openrouter_generate "" b →
      tierLoop oracle policy decision task_id (tier :: rest) escalation st =
        tierLoop oracle policy decision task_id rest (escalation + 1)
          { counter := st.counter + 1
            local_fail_count := st.local_fail_count
            total_latency := st.total_latency
            last_error := some "OPENROUTER_API_KEY not configured"
            events := st.events ++ [execEvent tier
              ((policy.models.lookup tier.value).getD decision.model)
              { success := false, output := none, latency_ms := 0, token_count := 0,
                error := some "OPENROUTER_API_KEY not configured" }] }) := by
  refine ⟨rfl, rfl, ?_⟩
  intro hT hOr
  have hF : (oracle st.counter).success = false := by rw [hOr]; rfl
  have hstep := tierLoop_fail_step oracle policy decision task_id tier rest escalation st hT hF
  rw [hstep, hOr]
  rfl

/-- C10 as amended: for adapter-produced outputs the gate accepts
mappings, sequences, and parsed strings whose own content parses as JSON;
parsed numbers, booleans and null are invalid, and raw text that failed
the adapter parse fails the gate re-parse too, so backend text like 42 or
true triggers invalid-JSON escalation. -/
theorem gate_classification (content : String) :
    (json_loads content = none →
      adapter_output content = JsonVal.str content ∧
      is_valid_json_output (some (adapter_output content)) = false) ∧
    (∀ v, json_loads content = some v → adapter_output content = v) ∧
    (json_loads content = some JsonVal.obj →
      is_valid_json_output (some (adapter_output content)) = true) ∧
    (json_loads content = some JsonVal.arr →
      is_valid_json_output (some (adapter_output content)) = true) ∧
    (∀ lit, json_loads content = some (JsonVal.num lit) →
      is_valid_json_output (some (adapter_output content)) = false) ∧
    (∀ b, json_loads content = some (JsonVal.bool b) →
      is_valid_json_output (some (adapter_output content)) = false) ∧
    (json_loads content = some JsonVal.null →
      is_valid_json_output (some (adapter_output content)) = false) ∧
    (∀ s, json_loads content = some (JsonVal.str s) →
      is_valid_json_output (some (adapter_output content)) = (json_loads s).isSome) ∧
    is_valid_json_output (some (adapter_output "42")) = false ∧
    is_valid_json_output (some (adapter_output "true")) = false := by
  refine ⟨?_, ?_, ?_, ?_, ?_, ?_, ?_, ?_, by decide, by decide⟩
  · intro h
    unfold adapter_output
    rw [h]
    exact ⟨rfl, by rw [is_valid_json_output, h]; rfl⟩
  · intro v h; unfold adapter_output; rw [h]
  · intro h; unfold adapter_output; rw [h]; rfl
  · intro h; unfold adapter_output; rw [h]; rfl
  · intro lit h; unfold adapter_output; rw [h]; rfl
  · intro b h; unfold adapter_output; rw [h]; rfl
  · intro h; unfold adapter_output; rw [h]; rfl
  · intro s h; unfold adapter_output; rw [h]; rfl

/-- Counterexample to C10 as stated: backend text consisting of a quoted
JSON string whose content itself parses as JSON produces a parsed string
accepted by the gate, which is not a mapping or sequence. -/
theorem gate_not_only_mappings :
    is_valid_json_output (some (adapter_output "\"42\"")) = true ∧
    isMappingOrSequence (adapter_output "\"42\"") = false ∧
    adapter_output "\"42\"" = JsonVal.str "42" := by
  refine ⟨by decide, by decide, by decide⟩

/-- Witness for C1: a concrete successful run under the defaults. -/
theorem escalation_level_tracks_w :
    polD.fallback_chain[start_index polD.fallback_chain decD.route +
      (run_with_fallback okOracle reqD polD govD decD "t").2.1.decision.escalation_level]?
      = some (run_with_fallback okOracle reqD polD govD decD "t").2.1.tier_used :=
  (escalation_level_tracks okOracle reqD polD govD decD "t").1 (by decide)

/-- Counterexample to C1 as stated: all adapters failing under the default
policy gives a failure Result whose last attempted tier is premium at
chain index 2 with start index 0, yet the carried escalation_level is 0. -/
theorem escalation_level_tracks_cex :
    (run_with_fallback failOracle reqD polD govD decD "t").2.1.success = false ∧
    lastExecutionTier (run_with_fallback failOracle reqD polD govD decD "t").1.events
      = some "premium" ∧
    polD.fallback_chain[2]? = some Tier.premium ∧
    start_index polD.fallback_chain decD.route = 0 ∧
    (run_with_fallback failOracle reqD polD govD decD "t").2.1.decision.escalation_level = 0 ∧
    (2 : Nat) - 0 ≠ 0 := by decide

/-- Witness for C2: the default duplicate-free chain. -/
theorem retry_budget_w :
    execCount (run_with_fallback okOracle reqD polD govD decD "t").1.events "local"
      ≤ polD.max_local_retries ∧
    execCount (run_with_fallback okOracle reqD polD govD decD "t").1.events Tier.market.value ≤ 1 :=
  ⟨(retry_budget okOracle reqD polD govD decD "t" (by decide)).1,
   (retry_budget okOracle reqD polD govD decD "t" (by decide)).2 Tier.market (by decide)⟩

/-- Counterexample to C2 as stated: a policy whose chain lists local twice
with max_local_retries one logs two execution events on local. -/
theorem retry_budget_cex :
    execCount (run_with_fallback failOracle reqD polDup govD
      (compute_decision reqD polDup govD) "t").1.events "local" = 2 ∧
    polDup.max_local_retries = 1 ∧ ¬(2 ≤ 1) := by decide

/-- Witness for C3: a concrete run under the defaults. -/
theorem audit_totality_w :
    typeCount (handle_run okOracle polD govD reqD "t").2.1 "final_result" = 1 ∧
    1 ≤ typeCount (handle_run okOracle polD govD reqD "t").2.1 "execution" :=
  ⟨(audit_totality okOracle polD govD reqD "t").1,
   (audit_totality okOracle polD govD reqD "t").2.2 (by decide) (by decide)⟩

/-- Counterexample to C3 as stated: a zero-length fallback chain returns a
Result yet emits no execution event at all. -/
theorem audit_totality_cex :
    typeCount (handle_run okOracle polEmpty govD reqD "t").2.1 "execution" = 0 ∧
    typeCount (handle_run okOracle polEmpty govD reqD "t").2.1 "final_result" = 1 := by decide

/-- Witness for C4: a 16-character prompt against a threshold of 3. -/
theorem context_overflow_gate_w :
    (compute_decision reqBig polThr govD).route = Tier.market ∧
    (compute_decision reqBig polThr govD).confidence = 85/100 ∧
    (compute_decision reqBig polThr govD).escalation_level = 1 :=
  ⟨(context_overflow_gate reqBig polThr govD (by decide) rfl).1.mpr (by decide),
   ((context_overflow_gate reqBig polThr govD (by decide) rfl).2 (by decide)).1,
   ((context_overflow_gate reqBig polThr govD (by decide) rfl).2 (by decide)).2⟩

/-- Witness for C5: a high-sensitivity request under the defaults. -/
theorem sensitivity_premium_w :
    (compute_decision reqHigh polD govD).route = Tier.premium ∧
    (compute_decision reqHigh polD govD).reason =
      "Sensitivity=high triggers premium tier per policy" :=
  ⟨(sensitivity_premium reqHigh polD govD rfl rfl).1,
   (sensitivity_premium reqHigh polD govD rfl rfl).2.2.2⟩

/-- Witness for C6: a concrete successful run under the defaults. -/
theorem success_decision_fields_w :
    (run_with_fallback okOracle reqD polD govD decD "t").2.2 = "completed" ∧
    (run_with_fallback okOracle reqD polD govD decD "t").2.1.decision.route =
      (run_with_fallback okOracle reqD polD govD decD "t").2.1.tier_used ∧
    (run_with_fallback okOracle reqD polD govD decD "t").2.1.decision.cost_estimate =
      estimate_cost (run_with_fallback okOracle reqD polD govD decD "t").2.1.tier_used.value
        ((okOracle ((run_with_fallback okOracle reqD polD govD decD "t").1.counter - 1)).token_count) :=
  ⟨(success_decision_fields okOracle reqD polD govD decD "t" (by decide)).1,
   (success_decision_fields okOracle reqD polD govD decD "t" (by decide)).2.1,
   (success_decision_fields okOracle reqD polD govD decD "t" (by decide)).2.2.2.2.2.2⟩

/-- Witness for C7: a local attempt returning non-JSON text breaks out of
the attempt loop with the retry budget unspent. -/
theorem invalid_json_branch_w :
    (attemptLoop invalidOracle polD decD "t" Tier.local_ "llama3.1:8b" 0 (1 + 1) initState).2
      = none ∧
    (attemptLoop invalidOracle polD decD "t" Tier.local_ "llama3.1:8b" 0 (1 + 1) initState).1.last_error
      = some "Invalid JSON output" := by
  have h := (invalid_json_branch invalidOracle polD decD "t" Tier.local_ "llama3.1:8b" 0 1 initState
    (by decide) (by decide)).1 rfl
  rw [h]
  exact ⟨rfl, rfl⟩

/-- Witness for C8: the zero-length chain fails immediately. -/
theorem exhaustion_failure_w :
    (run_with_fallback failOracle reqD polEmpty govD decD "t").2.1.success = false ∧
    (run_with_fallback failOracle reqD polEmpty govD decD "t").1.last_error = none ∧
    (run_with_fallback failOracle reqD polEmpty govD decD "t").1.events = [] ∧
    (run_with_fallback failOracle reqD polEmpty govD decD "t").1.counter = 0 ∧
    (run_with_fallback failOracle reqD polEmpty govD decD "t").2.1.error =
      some "All tiers exhausted. Last error: None" :=
  (exhaustion_failure failOracle reqD polEmpty govD decD "t").2 rfl

/-- Witness for C9: an unconfigured market attempt advances the loop. -/
theorem unconfigured_adapter_w :
    tierLoop unconfOracle polD decD "t" [Tier.market, Tier.premium] 1 initState =
      tierLoop unconfOracle polD decD "t" [Tier.premium] 2
        { counter := 1, local_fail_count := 0, total_latency := 0,
          last_error := some "OPENROUTER_API_KEY not configured",
          events := [execEvent Tier.market "meta-llama/llama-3.1-70b-instruct"
            { success := false, output := none, latency_ms := 0, token_count := 0,
              error := some "OPENROUTER_API_KEY not configured" }] } :=
  (unconfigured_adapter unconfOracle polD decD "t" Tier.market [Tier.premium] 1 initState
    httpStub httpStub).2.2 (by decide) rfl

/-- Witness for C10: unparseable backend text is stored raw and rejected
by the gate. -/
theorem gate_classification_w :
    adapter_output "nope" = JsonVal.str "nope" ∧
    is_valid_json_output (some (adapter_output "nope")) = false :=
  (gate_classification "nope").1 (by decide)

end Router
